import Mathlib

/-!
Shallow embedding of the curtislarson/terraform-provider-cloudflare
sources:

* `src/cloudflare/resource_cloudflare_zone_cache_variants.go` — the zone
  cache variants resource (read / update / delete callbacks and the
  payload builder `cacheVariantsValuesFromResource`);
* `src/unnamed/part_000` — the WAF groups data source
  (`dataSourceCloudflareWAFGroupsRead`, `expandFilterWAFGroups`).

External code (the Go `regexp` package, the Cloudflare API client) is
modelled by oracle parameters: a compile function producing a matcher or
an error, and API functions producing `Except` results.  Each callback
returns, besides the diagnostic and the updated resource data, a trace
of the API calls it issued and (for the read callbacks) a record of the
state fields it wrote, so that claims about "no API call issued" and
"no state written" are statable.
-/

/-- Boolean test that the first character list is an initial segment of
the second; used to build the substring test below. -/
def leadsWith : List Char → List Char → Bool
  | [], _ => true
  | _ :: _, [] => false
  | a :: as, b :: bs => a == b && leadsWith as bs

/-- Boolean test that `needle` occurs contiguously inside the second
list. -/
def containsSeq (needle : List Char) : List Char → Bool
  | [] => needle.isEmpty
  | c :: cs => leadsWith needle (c :: cs) || containsSeq needle cs

/-- Embedding of Go `strings.Contains(hay, needle)`. -/
def stringContains (hay needle : String) : Bool :=
  containsSeq needle.data hay.data

/-! ## Zone cache variants resource
Embeds `src/cloudflare/resource_cloudflare_zone_cache_variants.go`. -/

/-- The eleven-field payload struct `cloudflare.ZoneCacheVariantsValues`
from the API client; the Go zero value of each field is the empty
list. -/
structure ZoneCacheVariantsValues where
  Avif : List String := []
  Bmp : List String := []
  Gif : List String := []
  Jpeg : List String := []
  Jpg : List String := []
  Jp2 : List String := []
  Jpg2 : List String := []
  Png : List String := []
  Tif : List String := []
  Tiff : List String := []
  Webp : List String := []
deriving Repr, DecidableEq

/-- The API response struct `cloudflare.ZoneCacheVariants`; only its
`Value` field is read by the resource. -/
structure ZoneCacheVariants where
  Value : ZoneCacheVariantsValues
deriving Repr, DecidableEq

/-- The resource data (`*schema.ResourceData`) of the zone cache
variants resource: the identifier, the `zone_id` field, and the eleven
optional variant fields.  `some` models a field for which Go `GetOk`
returns true. -/
structure CacheVariantsData where
  id : String
  zone_id : String
  avif : Option (List String) := none
  bmp : Option (List String) := none
  gif : Option (List String) := none
  jpeg : Option (List String) := none
  jpg : Option (List String) := none
  jp2 : Option (List String) := none
  jpg2 : Option (List String) := none
  png : Option (List String) := none
  tif : Option (List String) := none
  tiff : Option (List String) := none
  webp : Option (List String) := none
deriving Repr, DecidableEq

/-- Outcome of a zone cache variants callback: the diagnostic (if any),
the resource data after the callback, and the list of variant field
names the callback wrote with `d.Set`. -/
structure CacheVariantsResult where
  diag : Option String
  d : CacheVariantsData
  written : List String
deriving Repr, DecidableEq

/-- Embedding of `resourceCloudflareZoneCacheVariantsRead`.  `api` is
the oracle for `client.ZoneCacheVariants`, keyed by the resource
identifier, returning either the response or the error text. -/
def resourceCloudflareZoneCacheVariantsRead
    (api : String → Except String ZoneCacheVariants)
    (d : CacheVariantsData) : CacheVariantsResult :=
  match api d.id with
  | .error err =>
    if stringContains err "HTTP status 404" then
      { diag := none, d := { d with id := "" }, written := [] }
    else
      { diag := some ("Error reading cache variants for zone " ++ d.id ++ ": " ++ err),
        d := d, written := [] }
  | .ok zoneCacheVariants =>
    let value := zoneCacheVariants.Value
    { diag := none,
      d := { d with
        avif := some value.Avif, bmp := some value.Bmp, gif := some value.Gif,
        jpeg := some value.Jpeg, jpg := some value.Jpg, jp2 := some value.Jp2,
        jpg2 := some value.Jpg2, png := some value.Png, tif := some value.Tif,
        tiff := some value.Tiff, webp := some value.Webp },
      written := ["avif", "bmp", "gif", "jpeg", "jpg", "jp2", "jpg2",
                  "png", "tif", "tiff", "webp"] }

/-- Embedding of `cacheVariantsValuesFromResource`: start from the zero
payload and copy each variant field into it exactly when `GetOk`
reports it as set. -/
def cacheVariantsValuesFromResource (d : CacheVariantsData) : ZoneCacheVariantsValues :=
  let variantsValue : ZoneCacheVariantsValues := {}
  let variantsValue := match d.avif with
    | some value => { variantsValue with Avif := value } | none => variantsValue
  let variantsValue := match d.bmp with
    | some value => { variantsValue with Bmp := value } | none => variantsValue
  let variantsValue := match d.gif with
    | some value => { variantsValue with Gif := value } | none => variantsValue
  let variantsValue := match d.jpeg with
    | some value => { variantsValue with Jpeg := value } | none => variantsValue
  let variantsValue := match d.jpg with
    | some value => { variantsValue with Jpg := value } | none => variantsValue
  let variantsValue := match d.jp2 with
    | some value => { variantsValue with Jp2 := value } | none => variantsValue
  let variantsValue := match d.jpg2 with
    | some value => { variantsValue with Jpg2 := value } | none => variantsValue
  let variantsValue := match d.png with
    | some value => { variantsValue with Png := value } | none => variantsValue
  let variantsValue := match d.tif with
    | some value => { variantsValue with Tif := value } | none => variantsValue
  let variantsValue := match d.tiff with
    | some value => { variantsValue with Tiff := value } | none => variantsValue
  let variantsValue := match d.webp with
    | some value => { variantsValue with Webp := value } | none => variantsValue
  variantsValue

/-- Embedding of `resourceCloudflareZoneCacheVariantsUpdate`: set the
identifier to `zone_id`, build the payload, issue the update call
(oracle `updateApi`), and on success fall through to the read
callback (with oracle `readApi`). -/
def resourceCloudflareZoneCacheVariantsUpdate
    (updateApi : String → ZoneCacheVariantsValues → Except String ZoneCacheVariants)
    (readApi : String → Except String ZoneCacheVariants)
    (d : CacheVariantsData) : CacheVariantsResult :=
  let d := { d with id := d.zone_id }
  let variantsValue := cacheVariantsValuesFromResource d
  match updateApi d.id variantsValue with
  | .error err =>
    { diag := some ("error setting cache variants for zone " ++ d.id ++ ": " ++ err),
      d := d, written := [] }
  | .ok _ => resourceCloudflareZoneCacheVariantsRead readApi d

/-- Embedding of `resourceCloudflareZoneCacheVariantsDelete`: issue the
delete call (oracle `deleteApi`, `none` meaning success) and surface
any error as a diagnostic. -/
def resourceCloudflareZoneCacheVariantsDelete
    (deleteApi : String → Option String)
    (d : CacheVariantsData) : CacheVariantsResult :=
  match deleteApi d.id with
  | some err =>
    { diag := some ("error deleting cache variants for zone " ++ d.id ++ ": " ++ err),
      d := d, written := [] }
  | none => { diag := none, d := d, written := [] }

/-! ## WAF groups data source
Embeds `src/unnamed/part_000` (`dataSourceCloudflareWAFGroups`). -/

/-- The `cloudflare.WAFPackage` struct from the API client; only its
`ID` field is used by the data source. -/
structure WAFPackage where
  ID : String
deriving Repr, DecidableEq

/-- The `cloudflare.WAFGroup` struct from the API client, with the
fields the data source copies into state. -/
structure WAFGroup where
  ID : String
  Name : String
  Description : String
  RulesCount : Nat
  ModifiedRulesCount : Nat
  Mode : String
deriving Repr, DecidableEq

/-- The `searchFilterWAFGroups` struct: an optional compiled name
matcher (the Go `*regexp.Regexp`, modelled by its `Match` function on
the name string) and a mode string whose zero value means "no mode
criterion". -/
structure searchFilterWAFGroups where
  Name : Option (String → Bool) := none
  Mode : String := ""

/-- One entry of the `filter` block as handed to
`expandFilterWAFGroups`: optional `name` and `mode` keys. -/
structure WAFFilterEntry where
  name : Option String := none
  mode : Option String := none
deriving Repr, DecidableEq

/-- Embedding of `expandFilterWAFGroups`.  `compile` is the oracle for
`regexp.Compile`, returning either a matcher or the compile error.
An absent entry (`none`) models an empty or nil `filter` config list. -/
def expandFilterWAFGroups
    (compile : String → Except String (String → Bool))
    (cfg : Option WAFFilterEntry) : Except String searchFilterWAFGroups :=
  match cfg with
  | none => .ok {}
  | some m =>
    let step1 : Except String searchFilterWAFGroups :=
      match m.name with
      | some nameStr =>
        match compile nameStr with
        | .error e => .error e
        | .ok matchFn => .ok { Name := some matchFn }
      | none => .ok {}
    match step1 with
    | .error e => .error e
    | .ok filter =>
      match m.mode with
      | some modeStr => .ok { filter with Mode := modeStr }
      | none => .ok filter

/-- The map written into the computed `groups` state for one matched
group. -/
structure GroupDetail where
  id : String
  name : String
  description : String
  mode : String
  rules_count : Nat
  modified_rules_count : Nat
  package_id : String
deriving Repr, DecidableEq

/-- Builds the state map for one matched group, paired with the ID of
the package it came from. -/
def mkGroupDetail (group : WAFGroup) (pkgID : String) : GroupDetail :=
  { id := group.ID, name := group.Name, description := group.Description,
    mode := group.Mode, rules_count := group.RulesCount,
    modified_rules_count := group.ModifiedRulesCount, package_id := pkgID }

/-- The first `continue` test of the inner loop:
`filter.Name != nil && !filter.Name.Match([]byte(group.Name))`. -/
def nameFilterRejects (filter : searchFilterWAFGroups) (group : WAFGroup) : Bool :=
  match filter.Name with
  | some matchFn => !(matchFn group.Name)
  | none => false

/-- The second `continue` test of the inner loop:
`filter.Mode != "" && filter.Mode != group.Mode`. -/
def modeFilterRejects (filter : searchFilterWAFGroups) (group : WAFGroup) : Bool :=
  filter.Mode != "" && filter.Mode != group.Mode

/-- The inner loop of `dataSourceCloudflareWAFGroupsRead` over one
fetched group list: skip a group when either `continue` test fires,
otherwise append its state map to `groupDetails` and its ID to
`groupIds`.  Returns the two accumulated lists for this package. -/
def wafGroupsInner (filter : searchFilterWAFGroups) (pkgID : String) :
    List WAFGroup → List GroupDetail × List String
  | [] => ([], [])
  | group :: rest =>
    if nameFilterRejects filter group then
      wafGroupsInner filter pkgID rest
    else if modeFilterRejects filter group then
      wafGroupsInner filter pkgID rest
    else
      let r := wafGroupsInner filter pkgID rest
      (mkGroupDetail group pkgID :: r.1, group.ID :: r.2)

/-- One API call issued by the data source. -/
inductive WAFApiCall where
  | listWAFPackages (zoneID : String)
  | listWAFGroups (zoneID : String) (pkgID : String)
deriving Repr, DecidableEq

/-- The outer loop of `dataSourceCloudflareWAFGroupsRead` over the
package list: fetch each package's group list (oracle
`listWAFGroups`), stop with the error on the first failed fetch, and
concatenate the per-package accumulations.  The trace records each
`ListWAFGroups` call issued. -/
def wafGroupsOuter (filter : searchFilterWAFGroups)
    (listWAFGroups : String → String → Except String (List WAFGroup))
    (zoneID : String) :
    List WAFPackage →
      Except (String × List WAFApiCall)
        (List GroupDetail × List String × List WAFApiCall)
  | [] => .ok ([], [], [])
  | pkg :: rest =>
    match listWAFGroups zoneID pkg.ID with
    | .error e => .error (e, [.listWAFGroups zoneID pkg.ID])
    | .ok groupList =>
      let here := wafGroupsInner filter pkg.ID groupList
      match wafGroupsOuter filter listWAFGroups zoneID rest with
      | .error (e, calls) => .error (e, .listWAFGroups zoneID pkg.ID :: calls)
      | .ok (details, ids, calls) =>
        .ok (here.1 ++ details, here.2 ++ ids,
             .listWAFGroups zoneID pkg.ID :: calls)

/-- Modelled from the spec: `stringListChecksum` is called by the data
source but its definition is not under `src/`; the spec says the
synthetic identifier is "a hash of the matched-identifier list", a
deterministic function of the ordered list of matched IDs.  We model it
as a concrete deterministic digest of the joined list. -/
def stringListChecksum (ids : List String) : String :=
  toString (ids.foldl
    (fun h s => s.foldl (fun h c => (h * 31 + c.toNat) % 2 ^ 64) (h + 1))
    (0 : Nat))

/-- The resource data handed to the WAF groups read callback: the zone
identifier, the optional `package_id` (Go zero value `""` when unset)
and the `filter` config list. -/
structure WAFGroupsData where
  zoneID : String
  packageID : String := ""
  filterCfg : Option WAFFilterEntry := none

/-- Outcome of the WAF groups read callback: the diagnostic (if any),
what was written into the computed `groups` state, the matched ID list,
the synthetic identifier set with `d.SetId`, and the trace of API calls
issued. -/
structure WAFGroupsReadResult where
  diag : Option String
  groupsWritten : Option (List GroupDetail)
  groupIds : Option (List String)
  idSet : Option String
  calls : List WAFApiCall
deriving Repr, DecidableEq

/-- Embedding of `dataSourceCloudflareWAFGroupsRead`: expand the
filter (failing before any API call on a bad pattern), fetch the
package list when no `package_id` is given (oracle `listWAFPackages`),
run the filtering loops, write the matched collection into `groups`
and set the identifier to the checksum of the matched ID list. -/
def dataSourceCloudflareWAFGroupsRead
    (compile : String → Except String (String → Bool))
    (listWAFPackages : String → Except String (List WAFPackage))
    (listWAFGroups : String → String → Except String (List WAFGroup))
    (d : WAFGroupsData) : WAFGroupsReadResult :=
  match expandFilterWAFGroups compile d.filterCfg with
  | .error e =>
    { diag := some e, groupsWritten := none, groupIds := none,
      idSet := none, calls := [] }
  | .ok filter =>
    let pkgFetch : Except String (List WAFPackage) × List WAFApiCall :=
      if d.packageID = "" then
        (listWAFPackages d.zoneID, [.listWAFPackages d.zoneID])
      else
        (.ok [{ ID := d.packageID }], [])
    match pkgFetch.1 with
    | .error e =>
      { diag := some e, groupsWritten := none, groupIds := none,
        idSet := none, calls := pkgFetch.2 }
    | .ok pkgList =>
      match wafGroupsOuter filter listWAFGroups d.zoneID pkgList with
      | .error (e, calls) =>
        { diag := some e, groupsWritten := none, groupIds := none,
          idSet := none, calls := pkgFetch.2 ++ calls }
      | .ok (groupDetails, groupIds, calls) =>
        { diag := none, groupsWritten := some groupDetails,
          groupIds := some groupIds,
          idSet := some (stringListChecksum groupIds),
          calls := pkgFetch.2 ++ calls }

/-! ## Theorems: zone cache variants -/

/-- C1 counterexample: the delete callback does NOT treat a
"HTTP status 404" error as success.  At a concrete state with
identifier `"z1"` and a delete API failing with a not-found error text,
the callback does not return success with a cleared identifier: it
returns a diagnostic and leaves the identifier as `"z1"`. -/
theorem delete_notFound_claim_false :
    ¬ ((resourceCloudflareZoneCacheVariantsDelete
          (fun _ => some "HTTP status 404: cache variants not found")
          { id := "z1", zone_id := "z1" }).diag = none
       ∧ (resourceCloudflareZoneCacheVariantsDelete
          (fun _ => some "HTTP status 404: cache variants not found")
          { id := "z1", zone_id := "z1" }).d.id = "") := by
  decide

/-- C1 (amended): when the delete API call fails — even with a
not-found condition (`HTTP status 404` in the error text) — the delete
callback surfaces the error as a diagnostic and leaves the resource
identifier unchanged; the not-found-as-success handling lives in the
read callback, not in delete. -/
theorem delete_surfaces_every_error
    (deleteApi : String → Option String) (d : CacheVariantsData) (err : String)
    (h : deleteApi d.id = some err) :
    resourceCloudflareZoneCacheVariantsDelete deleteApi d =
      { diag := some ("error deleting cache variants for zone " ++ d.id ++ ": " ++ err),
        d := d, written := [] } := by
  unfold resourceCloudflareZoneCacheVariantsDelete
  rw [h]

/-- Witness for C1 (amended) at a concrete not-found error. -/
theorem delete_surfaces_every_error_witness :
    resourceCloudflareZoneCacheVariantsDelete
        (fun _ => some "HTTP status 404: cache variants not found")
        { id := "z1", zone_id := "z1" } =
      { diag := some ("error deleting cache variants for zone z1: " ++
          "HTTP status 404: cache variants not found"),
        d := { id := "z1", zone_id := "z1" }, written := [] } :=
  delete_surfaces_every_error
    (fun _ => some "HTTP status 404: cache variants not found")
    { id := "z1", zone_id := "z1" }
    "HTTP status 404: cache variants not found" rfl

/-- C9: when the read API call fails with an error text containing
`HTTP status 404`, the read callback clears the identifier to the
empty string, returns success (no diagnostic), and writes no variant
field. -/
theorem read_notFound_clears_id
    (api : String → Except String ZoneCacheVariants) (d : CacheVariantsData)
    (err : String) (h : api d.id = .error err)
    (h404 : stringContains err "HTTP status 404" = true) :
    resourceCloudflareZoneCacheVariantsRead api d =
      { diag := none, d := { d with id := "" }, written := [] } := by
  unfold resourceCloudflareZoneCacheVariantsRead
  rw [h]
  simp [h404]

/-- Witness for C9 at a concrete 404 error. -/
theorem read_notFound_clears_id_witness :
    resourceCloudflareZoneCacheVariantsRead
        (fun _ => .error "error from makeRequest: HTTP status 404: not found")
        { id := "z9", zone_id := "z9", avif := some ["a"] } =
      { diag := none,
        d := { id := "", zone_id := "z9", avif := some ["a"] }, written := [] } :=
  read_notFound_clears_id
    (fun _ => .error "error from makeRequest: HTTP status 404: not found")
    { id := "z9", zone_id := "z9", avif := some ["a"] }
    "error from makeRequest: HTTP status 404: not found" rfl (by decide)

/-- Helper: the payload built by `cacheVariantsValuesFromResource` has
each of the eleven fields equal to the state value when the field is
set and to the Go zero value (the empty list) otherwise. -/
theorem cacheVariantsValues_eq (d : CacheVariantsData) :
    cacheVariantsValuesFromResource d =
      { Avif := d.avif.getD [], Bmp := d.bmp.getD [], Gif := d.gif.getD [],
        Jpeg := d.jpeg.getD [], Jpg := d.jpg.getD [], Jp2 := d.jp2.getD [],
        Jpg2 := d.jpg2.getD [], Png := d.png.getD [], Tif := d.tif.getD [],
        Tiff := d.tiff.getD [], Webp := d.webp.getD [] } := by
  rcases d with ⟨i, z, a, b, g, je, j, j2, jg2, p, t, tf, w⟩
  cases a <;> cases b <;> cases g <;> cases je <;> cases j <;> cases j2 <;>
    cases jg2 <;> cases p <;> cases t <;> cases tf <;> cases w <;> rfl

/-- C10 counterexample: the identifier does NOT equal `zone_id` after
every run of the update callback.  With an update API that succeeds and
a read API that fails with a 404, the follow-up read clears the
identifier to the empty string, which differs from the `zone_id`
value `"z1"`. -/
theorem update_id_claim_false :
    ¬ ((resourceCloudflareZoneCacheVariantsUpdate
          (fun _ _ => .ok { Value := {} })
          (fun _ => .error "HTTP status 404: not found")
          { id := "", zone_id := "z1" }).d.id = "z1") := by
  decide

/-- C10 (amended): the update callback sets the identifier to
`zone_id` before issuing the update API call; when that call fails, the
callback returns a diagnostic with the identifier still equal to
`zone_id` (the change is not rolled back); when it succeeds, the
callback returns exactly the result of the read callback on the state
whose identifier is `zone_id` (which may itself clear the identifier on
a not-found read). -/
theorem update_sets_id_before_call
    (updateApi : String → ZoneCacheVariantsValues → Except String ZoneCacheVariants)
    (readApi : String → Except String ZoneCacheVariants)
    (d : CacheVariantsData) :
    (∀ err,
      updateApi d.zone_id
          (cacheVariantsValuesFromResource { d with id := d.zone_id }) = .error err →
      (resourceCloudflareZoneCacheVariantsUpdate updateApi readApi d).d.id = d.zone_id
      ∧ (resourceCloudflareZoneCacheVariantsUpdate updateApi readApi d).diag.isSome = true)
    ∧ (∀ zcv,
      updateApi d.zone_id
          (cacheVariantsValuesFromResource { d with id := d.zone_id }) = .ok zcv →
      resourceCloudflareZoneCacheVariantsUpdate updateApi readApi d =
        resourceCloudflareZoneCacheVariantsRead readApi { d with id := d.zone_id }) := by
  constructor
  · intro err h
    simp only [resourceCloudflareZoneCacheVariantsUpdate, h]
    exact ⟨trivial, rfl⟩
  · intro zcv h
    simp only [resourceCloudflareZoneCacheVariantsUpdate, h]

/-- Witness for C10 (amended): at a failing update API the identifier
is `zone_id` and a diagnostic is returned. -/
theorem update_sets_id_before_call_witness :
    (resourceCloudflareZoneCacheVariantsUpdate
        (fun _ _ => .error "boom") (fun _ => .error "nope")
        { id := "", zone_id := "z1" }).d.id = "z1"
    ∧ (resourceCloudflareZoneCacheVariantsUpdate
        (fun _ _ => .error "boom") (fun _ => .error "nope")
        { id := "", zone_id := "z1" }).diag.isSome = true :=
  (update_sets_id_before_call
    (fun _ _ => .error "boom") (fun _ => .error "nope")
    { id := "", zone_id := "z1" }).1 "boom" rfl

/-- C7: the update payload copies each of the eleven variant fields
exactly when the field is set in state and leaves it at the zero value
otherwise, and after a successful update call the callback re-invokes
the read callback on the refreshed state. -/
theorem update_payload_from_present_fields
    (updateApi : String → ZoneCacheVariantsValues → Except String ZoneCacheVariants)
    (readApi : String → Except String ZoneCacheVariants)
    (d : CacheVariantsData) :
    cacheVariantsValuesFromResource d =
      { Avif := d.avif.getD [], Bmp := d.bmp.getD [], Gif := d.gif.getD [],
        Jpeg := d.jpeg.getD [], Jpg := d.jpg.getD [], Jp2 := d.jp2.getD [],
        Jpg2 := d.jpg2.getD [], Png := d.png.getD [], Tif := d.tif.getD [],
        Tiff := d.tiff.getD [], Webp := d.webp.getD [] }
    ∧ (∀ zcv,
      updateApi d.zone_id
          (cacheVariantsValuesFromResource { d with id := d.zone_id }) = .ok zcv →
      resourceCloudflareZoneCacheVariantsUpdate updateApi readApi d =
        resourceCloudflareZoneCacheVariantsRead readApi { d with id := d.zone_id }) := by
  refine ⟨cacheVariantsValues_eq d, ?_⟩
  intro zcv h
  simp only [resourceCloudflareZoneCacheVariantsUpdate, h]

/-- Witness for C7 at a state with some fields set and a succeeding
update API. -/
theorem update_payload_from_present_fields_witness :
    cacheVariantsValuesFromResource
        { id := "z2", zone_id := "z2", avif := some ["a", "b"], png := some [] } =
      { Avif := ["a", "b"], Png := [] }
    ∧ resourceCloudflareZoneCacheVariantsUpdate
        (fun _ _ => .ok { Value := {} }) (fun _ => .error "nope")
        { id := "z2", zone_id := "z2", avif := some ["a", "b"], png := some [] } =
      resourceCloudflareZoneCacheVariantsRead (fun _ => .error "nope")
        { id := "z2", zone_id := "z2", avif := some ["a", "b"], png := some [] } :=
  ⟨(update_payload_from_present_fields
      (fun _ _ => .ok { Value := {} }) (fun _ => .error "nope")
      { id := "z2", zone_id := "z2", avif := some ["a", "b"], png := some [] }).1,
   (update_payload_from_present_fields
      (fun _ _ => .ok { Value := {} }) (fun _ => .error "nope")
      { id := "z2", zone_id := "z2", avif := some ["a", "b"], png := some [] }).2
     { Value := {} } rfl⟩

/-! ## Theorems: WAF groups data source -/

/-- Helper: the two `continue` tests of the inner loop, combined and
negated, equal the positive filter predicate "the name matches the
compiled pattern and any mode criterion holds". -/
theorem filterPass_eq (m : String → Bool) (mode : String) (g : WAFGroup) :
    (!nameFilterRejects { Name := some m, Mode := mode } g
      && !modeFilterRejects { Name := some m, Mode := mode } g)
      = (m g.Name && (mode == "" || mode == g.Mode)) := by
  simp only [nameFilterRejects, modeFilterRejects, bne, Bool.not_and, Bool.not_not]

/-- Helper: the inner loop keeps, in order, exactly those groups from
the fetched list that pass both `continue` tests, mapped to their state
maps (first component) and their IDs (second component). -/
theorem wafGroupsInner_eq (filter : searchFilterWAFGroups) (pkgID : String)
    (gs : List WAFGroup) :
    wafGroupsInner filter pkgID gs =
      ((gs.filter fun g =>
          !nameFilterRejects filter g && !modeFilterRejects filter g).map
        (fun g => mkGroupDetail g pkgID),
       (gs.filter fun g =>
          !nameFilterRejects filter g && !modeFilterRejects filter g).map
        (fun g => g.ID)) := by
  induction gs with
  | nil => rfl
  | cons g rest ih =>
    cases h1 : nameFilterRejects filter g with
    | true => simp [wafGroupsInner, List.filter_cons, h1, ih]
    | false =>
      cases h2 : modeFilterRejects filter g with
      | true => simp [wafGroupsInner, List.filter_cons, h1, h2, ih]
      | false => simp [wafGroupsInner, List.filter_cons, h1, h2, ih]

/-- Helper: when every `ListWAFGroups` call succeeds (oracle
`fun _ p => .ok (f p)`), the outer loop succeeds and returns the
concatenation of the per-package inner-loop results, with one
`ListWAFGroups` call recorded per package. -/
theorem wafGroupsOuter_ok (filter : searchFilterWAFGroups)
    (f : String → List WAFGroup) (zoneID : String) (pkgs : List WAFPackage) :
    wafGroupsOuter filter (fun _ p => .ok (f p)) zoneID pkgs =
      .ok ((pkgs.map fun pkg => (wafGroupsInner filter pkg.ID (f pkg.ID)).1).flatten,
           (pkgs.map fun pkg => (wafGroupsInner filter pkg.ID (f pkg.ID)).2).flatten,
           pkgs.map fun pkg => .listWAFGroups zoneID pkg.ID) := by
  induction pkgs with
  | nil => rfl
  | cons pkg rest ih => simp [wafGroupsOuter, ih]

/-- Helper: full characterization of a successful run of the read
callback, for an always-succeeding `ListWAFGroups` oracle and a package
fetch that succeeds with list `pkgs`. -/
theorem wafGroupsRead_ok (compile : String → Except String (String → Bool))
    (lps : String → Except String (List WAFPackage))
    (f : String → List WAFGroup) (d : WAFGroupsData)
    (filter : searchFilterWAFGroups) (pkgs : List WAFPackage)
    (hflt : expandFilterWAFGroups compile d.filterCfg = .ok filter)
    (hpkgs : (if d.packageID = "" then lps d.zoneID
              else .ok [{ ID := d.packageID }]) = .ok pkgs) :
    dataSourceCloudflareWAFGroupsRead compile lps (fun _ p => .ok (f p)) d =
      { diag := none,
        groupsWritten :=
          some (pkgs.map fun pkg =>
            (wafGroupsInner filter pkg.ID (f pkg.ID)).1).flatten,
        groupIds :=
          some (pkgs.map fun pkg =>
            (wafGroupsInner filter pkg.ID (f pkg.ID)).2).flatten,
        idSet :=
          some (stringListChecksum (pkgs.map fun pkg =>
            (wafGroupsInner filter pkg.ID (f pkg.ID)).2).flatten),
        calls :=
          (if d.packageID = "" then [.listWAFPackages d.zoneID] else [])
            ++ pkgs.map fun pkg => .listWAFGroups d.zoneID pkg.ID } := by
  unfold dataSourceCloudflareWAFGroupsRead
  simp only [hflt]
  by_cases hp : d.packageID = ""
  · rw [if_pos hp] at hpkgs
    simp [hp, hpkgs, wafGroupsOuter_ok]
  · rw [if_neg hp] at hpkgs
    have hpkgs2 : pkgs = [{ ID := d.packageID }] := by
      cases hpkgs
      rfl
    simp [hp, hpkgs2, wafGroupsOuter_ok]

/-- Concrete stand-in for the external regexp compiler, used in closed
examples: it understands the pattern `^bot` (matching exactly the names
that start with `bot`, as the Go regexp does), the empty pattern
(matching every name, as the Go regexp does) and fails on any other
pattern. -/
def compileStub : String → Except String (String → Bool) :=
  fun s =>
    if s = "^bot" then .ok (fun t => leadsWith "bot".data t.data)
    else if s = "" then .ok (fun _ => true)
    else .error ("error parsing regexp: " ++ s)

/-- The concrete group list of the spec example. -/
def groupsStub : List WAFGroup :=
  [{ ID := "g1", Name := "bot-detect", Description := "d1",
     RulesCount := 5, ModifiedRulesCount := 0, Mode := "on" },
   { ID := "g2", Name := "bot-detect", Description := "d2",
     RulesCount := 3, ModifiedRulesCount := 0, Mode := "off" },
   { ID := "g3", Name := "sql-inject", Description := "d3",
     RulesCount := 2, ModifiedRulesCount := 0, Mode := "on" }]

/-- C2: when the filter block carries a name value the regexp compiler
rejects, the read callback returns the compile error as a diagnostic
with an empty API-call trace (no `ListWAFPackages` or `ListWAFGroups`
call) and without writing `groups`, the matched IDs or the
identifier. -/
theorem wafGroupsRead_badPattern_failsFast
    (compile : String → Except String (String → Bool))
    (lps : String → Except String (List WAFPackage))
    (lwg : String → String → Except String (List WAFGroup))
    (d : WAFGroupsData) (entry : WAFFilterEntry) (nameStr e : String)
    (hcfg : d.filterCfg = some entry) (hname : entry.name = some nameStr)
    (hbad : compile nameStr = .error e) :
    dataSourceCloudflareWAFGroupsRead compile lps lwg d =
      { diag := some e, groupsWritten := none, groupIds := none,
        idSet := none, calls := [] } := by
  have hexp : expandFilterWAFGroups compile d.filterCfg = .error e := by
    simp [expandFilterWAFGroups, hcfg, hname, hbad]
  unfold dataSourceCloudflareWAFGroupsRead
  simp only [hexp]

/-- Witness for C2: a concrete filter whose name is not a valid
pattern. -/
theorem wafGroupsRead_badPattern_failsFast_witness :
    dataSourceCloudflareWAFGroupsRead compileStub (fun _ => .ok [])
        (fun _ _ => .ok groupsStub)
        { zoneID := "z", packageID := "",
          filterCfg := some { name := some "(", mode := some "on" } } =
      { diag := some ("error parsing regexp: " ++ "("), groupsWritten := none,
        groupIds := none, idSet := none, calls := [] } :=
  wafGroupsRead_badPattern_failsFast compileStub (fun _ => .ok [])
    (fun _ _ => .ok groupsStub)
    { zoneID := "z", packageID := "",
      filterCfg := some { name := some "(", mode := some "on" } }
    { name := some "(", mode := some "on" } "(" ("error parsing regexp: " ++ "(")
    rfl rfl rfl

/-- C3: when the expanded filter carries a compiled name matcher `m`,
the read callback writes into `groups` exactly the fetched items whose
name matches `m` and which pass the mode criterion, in fetch order;
in particular an item whose name does not match is never included. -/
theorem wafGroupsRead_name_filter
    (compile : String → Except String (String → Bool))
    (lps : String → Except String (List WAFPackage))
    (f : String → List WAFGroup) (d : WAFGroupsData) (m : String → Bool)
    (filter : searchFilterWAFGroups) (pkgs : List WAFPackage)
    (hflt : expandFilterWAFGroups compile d.filterCfg = .ok filter)
    (hname : filter.Name = some m)
    (hpkgs : (if d.packageID = "" then lps d.zoneID
              else .ok [{ ID := d.packageID }]) = .ok pkgs) :
    (dataSourceCloudflareWAFGroupsRead compile lps
        (fun _ p => .ok (f p)) d).groupsWritten =
      some ((pkgs.map fun pkg =>
        ((f pkg.ID).filter fun g =>
            m g.Name && (filter.Mode == "" || filter.Mode == g.Mode)).map
          fun g => mkGroupDetail g pkg.ID).flatten) := by
  rw [wafGroupsRead_ok compile lps f d filter pkgs hflt hpkgs]
  have hpred : ∀ g : WAFGroup,
      (!nameFilterRejects filter g && !modeFilterRejects filter g)
        = (m g.Name && (filter.Mode == "" || filter.Mode == g.Mode)) := by
    intro g
    simp [nameFilterRejects, modeFilterRejects, hname, bne,
      Bool.not_and, Bool.not_not]
  simp only [wafGroupsInner_eq, hpred]

/-- Witness for C3 at the concrete `^bot`/`on` filter of the spec
example. -/
theorem wafGroupsRead_name_filter_witness :
    (dataSourceCloudflareWAFGroupsRead compileStub (fun _ => .ok [])
        (fun _ p => .ok ((fun q => if q = "pkg1" then groupsStub else []) p))
        { zoneID := "z", packageID := "pkg1",
          filterCfg := some { name := some "^bot", mode := some "on" } }).groupsWritten =
      some [{ id := "g1", name := "bot-detect", description := "d1", mode := "on",
              rules_count := 5, modified_rules_count := 0, package_id := "pkg1" }] :=
  (wafGroupsRead_name_filter compileStub (fun _ => .ok [])
    (fun q => if q = "pkg1" then groupsStub else [])
    { zoneID := "z", packageID := "pkg1",
      filterCfg := some { name := some "^bot", mode := some "on" } }
    (fun t => leadsWith "bot".data t.data)
    { Name := some (fun t => leadsWith "bot".data t.data), Mode := "on" }
    [{ ID := "pkg1" }] rfl rfl rfl).trans (by decide)

/-- C4: whenever the expanded filter carries a non-empty mode value,
every item the read callback writes into `groups` has exactly that mode
(string equality). -/
theorem wafGroupsRead_mode_filter
    (compile : String → Except String (String → Bool))
    (lps : String → Except String (List WAFPackage))
    (f : String → List WAFGroup) (d : WAFGroupsData)
    (filter : searchFilterWAFGroups) (pkgs : List WAFPackage)
    (details : List GroupDetail) (x : GroupDetail)
    (hflt : expandFilterWAFGroups compile d.filterCfg = .ok filter)
    (hpkgs : (if d.packageID = "" then lps d.zoneID
              else .ok [{ ID := d.packageID }]) = .ok pkgs)
    (hmode : filter.Mode ≠ "")
    (hdet : (dataSourceCloudflareWAFGroupsRead compile lps
        (fun _ p => .ok (f p)) d).groupsWritten = some details)
    (hx : x ∈ details) :
    x.mode = filter.Mode := by
  rw [wafGroupsRead_ok compile lps f d filter pkgs hflt hpkgs] at hdet
  simp only [wafGroupsInner_eq, Option.some_inj] at hdet
  subst hdet
  rw [List.mem_flatten] at hx
  obtain ⟨l, hl, hxl⟩ := hx
  rw [List.mem_map] at hl
  obtain ⟨pkg, _, rfl⟩ := hl
  rw [List.mem_map] at hxl
  obtain ⟨g, hg, rfl⟩ := hxl
  rw [List.mem_filter] at hg
  have hpass := hg.2
  rw [Bool.and_eq_true] at hpass
  have hmr := hpass.2
  rw [Bool.not_eq_true'] at hmr
  unfold modeFilterRejects at hmr
  rw [Bool.and_eq_false_iff] at hmr
  rcases hmr with hmr | hmr
  · exact absurd (by rwa [bne_eq_false_iff_eq] at hmr) hmode
  · have : filter.Mode = g.Mode := by rwa [bne_eq_false_iff_eq] at hmr
    simp [mkGroupDetail, this]

/-- Witness for C4: the kept item of the concrete example has mode
`on`, the filter's mode value. -/
theorem wafGroupsRead_mode_filter_witness :
    ({ id := "g1", name := "bot-detect", description := "d1", mode := "on",
       rules_count := 5, modified_rules_count := 0,
       package_id := "pkg1" } : GroupDetail).mode =
      ({ Name := some (fun t => leadsWith "bot".data t.data),
         Mode := "on" } : searchFilterWAFGroups).Mode :=
  wafGroupsRead_mode_filter compileStub (fun _ => .ok [])
    (fun q => if q = "pkg1" then groupsStub else [])
    { zoneID := "z", packageID := "pkg1",
      filterCfg := some { name := some "^bot", mode := some "on" } }
    { Name := some (fun t => leadsWith "bot".data t.data), Mode := "on" }
    [{ ID := "pkg1" }]
    [{ id := "g1", name := "bot-detect", description := "d1", mode := "on",
       rules_count := 5, modified_rules_count := 0, package_id := "pkg1" }]
    { id := "g1", name := "bot-detect", description := "d1", mode := "on",
      rules_count := 5, modified_rules_count := 0, package_id := "pkg1" }
    rfl rfl (by decide) (by decide) (by decide)

/-- C5: when the filter block carries an empty name pattern (whose
compiled matcher accepts every string, as the Go regexp does) and an
empty mode, the read callback writes every item of every fetched group
list into `groups`, unfiltered and in fetch order. -/
theorem wafGroupsRead_empty_filter
    (compile : String → Except String (String → Bool))
    (lps : String → Except String (List WAFPackage))
    (f : String → List WAFGroup) (d : WAFGroupsData) (m : String → Bool)
    (pkgs : List WAFPackage)
    (hcfg : d.filterCfg = some { name := some "", mode := some "" })
    (hcomp : compile "" = .ok m) (hm : ∀ s, m s = true)
    (hpkgs : (if d.packageID = "" then lps d.zoneID
              else .ok [{ ID := d.packageID }]) = .ok pkgs) :
    (dataSourceCloudflareWAFGroupsRead compile lps
        (fun _ p => .ok (f p)) d).groupsWritten =
      some ((pkgs.map fun pkg =>
        (f pkg.ID).map fun g => mkGroupDetail g pkg.ID).flatten) := by
  have hflt : expandFilterWAFGroups compile d.filterCfg =
      .ok { Name := some m, Mode := "" } := by
    simp [expandFilterWAFGroups, hcfg, hcomp]
  rw [wafGroupsRead_ok compile lps f d { Name := some m, Mode := "" } pkgs hflt hpkgs]
  simp [wafGroupsInner_eq, nameFilterRejects, modeFilterRejects, hm]

/-- Witness for C5: the empty filter keeps all three groups of the
concrete example. -/
theorem wafGroupsRead_empty_filter_witness :
    (dataSourceCloudflareWAFGroupsRead compileStub (fun _ => .ok [])
        (fun _ p => .ok ((fun q => if q = "pkg1" then groupsStub else []) p))
        { zoneID := "z", packageID := "pkg1",
          filterCfg := some { name := some "", mode := some "" } }).groupsWritten =
      some
        [{ id := "g1", name := "bot-detect", description := "d1", mode := "on",
           rules_count := 5, modified_rules_count := 0, package_id := "pkg1" },
         { id := "g2", name := "bot-detect", description := "d2", mode := "off",
           rules_count := 3, modified_rules_count := 0, package_id := "pkg1" },
         { id := "g3", name := "sql-inject", description := "d3", mode := "on",
           rules_count := 2, modified_rules_count := 0, package_id := "pkg1" }] :=
  (wafGroupsRead_empty_filter compileStub (fun _ => .ok [])
    (fun q => if q = "pkg1" then groupsStub else [])
    { zoneID := "z", packageID := "pkg1",
      filterCfg := some { name := some "", mode := some "" } }
    (fun _ => true) [{ ID := "pkg1" }]
    rfl rfl (fun _ => rfl) rfl).trans (by decide)

/-- Helper: on every run of the read callback, the identifier it sets
is exactly the checksum of the matched-ID list it accumulated (and both
are absent on failure). -/
theorem wafGroupsRead_idSet_eq
    (compile : String → Except String (String → Bool))
    (lps : String → Except String (List WAFPackage))
    (lwg : String → String → Except String (List WAFGroup))
    (d : WAFGroupsData) :
    (dataSourceCloudflareWAFGroupsRead compile lps lwg d).idSet =
      (dataSourceCloudflareWAFGroupsRead compile lps lwg d).groupIds.map
        stringListChecksum := by
  unfold dataSourceCloudflareWAFGroupsRead
  split
  · rfl
  · dsimp only
    split
    · rfl
    · split <;> rfl

/-- C6: the synthetic identifier is a deterministic function of the
ordered matched-ID list: any two runs of the read callback (with any
oracles and inputs) whose matched-ID lists are the same set the same
identifier. -/
theorem wafGroupsRead_id_deterministic
    (compile₁ compile₂ : String → Except String (String → Bool))
    (lps₁ lps₂ : String → Except String (List WAFPackage))
    (lwg₁ lwg₂ : String → String → Except String (List WAFGroup))
    (d₁ d₂ : WAFGroupsData) (ids : List String)
    (h₁ : (dataSourceCloudflareWAFGroupsRead compile₁ lps₁ lwg₁ d₁).groupIds = some ids)
    (h₂ : (dataSourceCloudflareWAFGroupsRead compile₂ lps₂ lwg₂ d₂).groupIds = some ids) :
    (dataSourceCloudflareWAFGroupsRead compile₁ lps₁ lwg₁ d₁).idSet =
      (dataSourceCloudflareWAFGroupsRead compile₂ lps₂ lwg₂ d₂).idSet := by
  rw [wafGroupsRead_idSet_eq, wafGroupsRead_idSet_eq, h₁, h₂]

/-- Witness for C6: two runs over different packages whose matched-ID
lists coincide (both `["g1"]`) set the same identifier. -/
theorem wafGroupsRead_id_deterministic_witness :
    (dataSourceCloudflareWAFGroupsRead compileStub (fun _ => .ok [])
        (fun _ _ => .ok groupsStub)
        { zoneID := "z", packageID := "pkg1",
          filterCfg := some { name := some "^bot", mode := some "on" } }).idSet =
      (dataSourceCloudflareWAFGroupsRead compileStub (fun _ => .ok [])
        (fun _ _ => .ok groupsStub)
        { zoneID := "z", packageID := "pkg2",
          filterCfg := some { name := some "^bot", mode := some "on" } }).idSet :=
  wafGroupsRead_id_deterministic compileStub compileStub
    (fun _ => .ok []) (fun _ => .ok [])
    (fun _ _ => .ok groupsStub) (fun _ _ => .ok groupsStub)
    { zoneID := "z", packageID := "pkg1",
      filterCfg := some { name := some "^bot", mode := some "on" } }
    { zoneID := "z", packageID := "pkg2",
      filterCfg := some { name := some "^bot", mode := some "on" } }
    ["g1"] (by decide) (by decide)

/-- C8: the spec example.  The filter `{name := "^bot", mode := "on"}`
applied to the three-group list keeps exactly one group, the first
(`bot-detect` with mode `on`). -/
theorem wafGroupsRead_example :
    (dataSourceCloudflareWAFGroupsRead compileStub (fun _ => .ok [])
        (fun _ _ => .ok groupsStub)
        { zoneID := "z", packageID := "pkg1",
          filterCfg := some { name := some "^bot", mode := some "on" } }).groupsWritten =
      some [{ id := "g1", name := "bot-detect", description := "d1", mode := "on",
              rules_count := 5, modified_rules_count := 0,
              package_id := "pkg1" }] := by
  decide
